import Mathlib

/-!
Shallow embedding of the affiliate commission & payout ledger subsystem of
the commercive backend (lambda_functions/commercive_leads.py,
commercive_payouts.py, commercive_admin.py, commercive_affiliates.py).

Modelling conventions:
* DynamoDB tables become lists of typed records; `get_item` is `List.find?`
  on the key, `update_item` maps the partial update over the matching items,
  `put_item` appends.  Store writes are modelled as succeeding (the claims
  under study concern the handler logic before/around the writes); store
  READ failures are modelled where a claim depends on them
  (`calculate_balance` takes `Except Unit` read results, mirroring the
  try/except in the source).
* Python falsiness is modelled explicitly: a missing or zero `amount` is
  `none` / `0`, a missing or empty string option is collapsed by `pyOr`.
* Each distinct `bad_request`/`not_found`/`forbidden` return site of the
  source is mapped to a constructor of `Err` named after the error taxonomy
  of the specification (`invalidReferral` covers both the "Invalid referral
  link" and "This referral link is no longer active" rejections computed
  at lines 118-123 of commercive_leads.py).
* Randomness (`random.choices`) and UUID generation are oracles passed as
  parameters: a draw function into the 36-character alphabet, and the UUID
  string.
-/

namespace Commercive

/-- Error outcomes of the ledger handlers, one constructor per rejection
class of the source (bad_request / not_found / forbidden sites). -/
inductive Err where
  | validationError
  | notFound
  | forbidden
  | invalidReferral
  | alreadyConverted
  | alreadyProcessed
  | insufficientBalance
  | belowMinimum
  deriving DecidableEq, Repr

/-- An item of the `commercive_affiliates` table (fields used by the
ledger core). -/
structure Affiliate where
  affiliate_id : String
  user_id : Option String
  status : String
  total_leads : Int
  total_conversions : Int
  total_earned : Int
  total_paid : Int
  payment_method : Option String
  payment_email : Option String
  deriving DecidableEq, Repr

/-- An item of the `commercive_affiliate_links` table. -/
structure ReferralLink where
  link_id : String
  affiliate_id : String
  short_code : String
  name : String
  leads_count : Int
  conversions_count : Int
  is_active : Bool
  deriving DecidableEq, Repr

/-- An item of the `commercive_leads` table. -/
structure Lead where
  lead_id : String
  affiliate_id : String
  link_id : Option String
  name : String
  email : String
  phone : String
  company : String
  message : String
  status : String
  notes : String
  converted_at : Option String
  deriving DecidableEq, Repr

/-- An item of the `commercive_commissions` table. -/
structure Commission where
  commission_id : String
  affiliate_id : String
  lead_id : String
  description : String
  amount : Int
  status : String
  payout_id : Option String
  deriving DecidableEq, Repr

/-- An item of the `commercive_payouts` table. -/
structure Payout where
  payout_id : String
  affiliate_id : String
  amount : Int
  payment_method : String
  payment_email : String
  status : String
  transaction_id : Option String
  notes : Option String
  requested_at : String
  processed_at : Option String
  processed_by : Option String
  deriving DecidableEq, Repr

/-- The key-value store: one list per table. -/
structure DB where
  affiliates : List Affiliate
  links : List ReferralLink
  leads : List Lead
  commissions : List Commission
  payouts : List Payout
  deriving DecidableEq, Repr

/-- `get_item(table, key)`: first item whose key attribute equals `id`. -/
def findBy {α : Type} (key : α → String) (id : String) (l : List α) : Option α :=
  l.find? (fun x => key x == id)

/-- `update_item(table, key, attrs)`: apply the partial update to every
item whose key attribute equals `id`. -/
def updateBy {α : Type} (key : α → String) (id : String) (f : α → α) (l : List α) : List α :=
  l.map (fun x => if key x == id then f x else x)

def getAffiliate (db : DB) (id : String) : Option Affiliate :=
  findBy Affiliate.affiliate_id id db.affiliates

def getLink (db : DB) (id : String) : Option ReferralLink :=
  findBy ReferralLink.link_id id db.links

def getLead (db : DB) (id : String) : Option Lead :=
  findBy Lead.lead_id id db.leads

def getPayout (db : DB) (id : String) : Option Payout :=
  findBy Payout.payout_id id db.payouts

def updateAffiliateIn (db : DB) (id : String) (f : Affiliate → Affiliate) : DB :=
  { db with affiliates := updateBy Affiliate.affiliate_id id f db.affiliates }

def updateLinkIn (db : DB) (id : String) (f : ReferralLink → ReferralLink) : DB :=
  { db with links := updateBy ReferralLink.link_id id f db.links }

def updateLeadIn (db : DB) (id : String) (f : Lead → Lead) : DB :=
  { db with leads := updateBy Lead.lead_id id f db.leads }

def updatePayoutIn (db : DB) (id : String) (f : Payout → Payout) : DB :=
  { db with payouts := updateBy Payout.payout_id id f db.payouts }

/-- Query on the `affiliate-payouts-index`: all payouts of an affiliate. -/
def queryPayouts (db : DB) (affiliate_id : String) : List Payout :=
  db.payouts.filter (fun p => p.affiliate_id == affiliate_id)

/-- Query on the `user-affiliate-index`, taking the first result, as
`get_affiliate_by_user_id` in commercive_payouts.py does. -/
def get_affiliate_by_user_id (db : DB) (user_id : String) : Option Affiliate :=
  (db.affiliates.filter (fun a => a.user_id == some user_id)).head?

/-! ## Balance Calculator (commercive_payouts.py, calculate_balance) -/

/-- Result shape of `calculate_balance`. -/
structure Balance where
  total_earned : Int
  total_paid : Int
  pending : Int
  available : Int
  deriving DecidableEq, Repr

def zeroBalance : Balance := ⟨0, 0, 0, 0⟩

/-- The single pass over the payouts accumulating
`(completed_amount, pending_amount)`, mirroring the `for payout in payouts`
loop: `completed` adds to the first component, `pending`/`processing` to the
second, any other status (for example `failed`) to neither. -/
def payoutTotals (payouts : List Payout) : Int × Int :=
  payouts.foldl
    (fun acc p =>
      if p.status == "completed" then (acc.1 + p.amount, acc.2)
      else if p.status == "pending" || p.status == "processing" then
        (acc.1, acc.2 + p.amount)
      else acc)
    (0, 0)

/-- `calculate_balance(affiliate_id)`.  The two store reads (the
`get_item` on `commercive_affiliates` and the `query` on the payout index)
are passed as `Except Unit` results; the surrounding `try/except` of the
source turns any raised error — including the `ValueError('Affiliate not
found')` raised when the get returns nothing — into the zero balance. -/
def calculate_balance (getAffiliateRes : Except Unit (Option Affiliate))
    (queryPayoutsRes : Except Unit (List Payout)) : Balance :=
  match getAffiliateRes with
  | .error _ => zeroBalance
  | .ok none => zeroBalance
  | .ok (some aff) =>
    match queryPayoutsRes with
    | .error _ => zeroBalance
    | .ok payouts =>
      let totals := payoutTotals payouts
      { total_earned := aff.total_earned
        total_paid := totals.1
        pending := totals.2
        available := max 0 (aff.total_earned - totals.1 - totals.2) }

/-- Specification-style sum: amounts of the payouts with status
`completed`. -/
def completedSum (ps : List Payout) : Int :=
  ((ps.filter (fun p => p.status == "completed")).map Payout.amount).sum

/-- Specification-style sum: amounts of the payouts with status `pending`
or `processing`. -/
def pendingSum (ps : List Payout) : Int :=
  ((ps.filter (fun p => p.status == "pending" || p.status == "processing")).map
    Payout.amount).sum

lemma payoutTotals_aux (ps : List Payout) (a b : Int) :
    ps.foldl
      (fun acc p =>
        if p.status == "completed" then (acc.1 + p.amount, acc.2)
        else if p.status == "pending" || p.status == "processing" then
          (acc.1, acc.2 + p.amount)
        else acc)
      (a, b) = (a + completedSum ps, b + pendingSum ps) := by
  induction ps generalizing a b with
  | nil => simp [completedSum, pendingSum]
  | cons p ps ih =>
    by_cases hc : p.status == "completed"
    · simp only [List.foldl_cons, hc, if_pos]
      rw [ih]
      simp only [completedSum, pendingSum, List.filter_cons, hc]
      have hc' : (p.status == "pending" || p.status == "processing") = false := by
        have h : p.status = "completed" := by
          simpa using hc
        simp [h]
      simp [hc', add_assoc]
    · by_cases hp : (p.status == "pending" || p.status == "processing") = true
      · simp only [List.foldl_cons, hc, if_neg, Bool.false_eq_true,
          not_false_eq_true, hp, if_pos]
        rw [ih]
        simp only [completedSum, pendingSum, List.filter_cons, hc, hp]
        simp [add_assoc]
      · simp only [List.foldl_cons, hc, hp, Bool.false_eq_true, if_neg,
          not_false_eq_true]
        rw [ih]
        simp only [completedSum, pendingSum, List.filter_cons, hc, hp]
        simp

lemma payoutTotals_eq (ps : List Payout) :
    payoutTotals ps = (completedSum ps, pendingSum ps) := by
  have h := payoutTotals_aux ps 0 0
  simpa [payoutTotals] using h

/-- Example affiliate for the concrete balance scenario of the spec:
`total_earned = 5000`, and a deliberately wrong cached `total_paid` to
show the cache is ignored. -/
def affC2 : Affiliate :=
  { affiliate_id := "A1", user_id := some "U1", status := "active",
    total_leads := 0, total_conversions := 0, total_earned := 5000,
    total_paid := 777, payment_method := some "paypal",
    payment_email := some "a@b.co" }

def payoutCompleted2000 : Payout :=
  { payout_id := "P1", affiliate_id := "A1", amount := 2000,
    payment_method := "paypal", payment_email := "a@b.co",
    status := "completed", transaction_id := some "t1", notes := none,
    requested_at := "t0", processed_at := some "t", processed_by := some "admin" }

def payoutPending1000 : Payout :=
  { payout_id := "P2", affiliate_id := "A1", amount := 1000,
    payment_method := "paypal", payment_email := "a@b.co",
    status := "pending", transaction_id := none, notes := none,
    requested_at := "t0", processed_at := none, processed_by := none }

def payoutFailed400 : Payout :=
  { payout_id := "P3", affiliate_id := "A1", amount := 400,
    payment_method := "paypal", payment_email := "a@b.co",
    status := "failed", transaction_id := none, notes := none,
    requested_at := "t0", processed_at := none, processed_by := none }

/-- C2: for a found affiliate and a successful payout query,
`calculate_balance` returns `total_earned` from the affiliate record,
`total_paid` as the sum of `completed` payout amounts, `pending` as the sum
of `pending`/`processing` payout amounts (a `failed` payout counts in
neither, so prepending one changes nothing), and
`available = max 0 (total_earned - total_paid - pending)`; the cached
`total_paid` field of the affiliate record never influences the result. -/
theorem calculate_balance_spec (aff : Affiliate) (ps : List Payout) (v : Int)
    (fp : Payout) :
    calculate_balance (.ok (some aff)) (.ok ps) =
      { total_earned := aff.total_earned
        total_paid := completedSum ps
        pending := pendingSum ps
        available := max 0 (aff.total_earned - completedSum ps - pendingSum ps) }
    ∧ calculate_balance (.ok (some { aff with total_paid := v })) (.ok ps) =
        calculate_balance (.ok (some aff)) (.ok ps)
    ∧ (fp.status = "failed" →
        calculate_balance (.ok (some aff)) (.ok (fp :: ps)) =
          calculate_balance (.ok (some aff)) (.ok ps)) := by
  refine ⟨?_, ?_, ?_⟩
  · simp [calculate_balance, payoutTotals_eq]
  · simp [calculate_balance]
  · intro hf
    simp [calculate_balance, payoutTotals_eq, completedSum, pendingSum,
      List.filter_cons, hf]

/-- Witness for C2, including the spec's concrete scenario:
`total_earned = 5000`, one completed payout of 2000, one pending payout of
1000 (and one failed payout of 400, which changes nothing) gives
`{total_earned := 5000, total_paid := 2000, pending := 1000, available := 2000}`
even though the cached `total_paid` on the record is 777. -/
theorem calculate_balance_spec_witness :
    payoutFailed400.status = "failed"
    ∧ calculate_balance (.ok (some affC2))
        (.ok [payoutFailed400, payoutCompleted2000, payoutPending1000]) =
      calculate_balance (.ok (some affC2))
        (.ok [payoutCompleted2000, payoutPending1000])
    ∧ calculate_balance (.ok (some affC2))
        (.ok [payoutCompleted2000, payoutPending1000]) =
      { total_earned := 5000, total_paid := 2000, pending := 1000,
        available := 2000 } :=
  ⟨rfl,
   (calculate_balance_spec affC2 [payoutCompleted2000, payoutPending1000] 0
      payoutFailed400).2.2 rfl,
   by decide⟩

/-- C7: `calculate_balance` returns the zeroed balance whenever the
affiliate get raises, the affiliate is not found, or the payout query
raises, instead of propagating the error. -/
theorem calculate_balance_zero_on_failure :
    (∀ q : Except Unit (List Payout), calculate_balance (.error ()) q = zeroBalance)
    ∧ (∀ q : Except Unit (List Payout), calculate_balance (.ok none) q = zeroBalance)
    ∧ (∀ a : Affiliate, calculate_balance (.ok (some a)) (.error ()) = zeroBalance) := by
  refine ⟨fun q => rfl, fun q => rfl, fun a => rfl⟩

/-- Python's `str.strip()`: drop leading and trailing whitespace.
(Implemented by structural recursion over the character list so that it
evaluates inside the kernel.) -/
def pyStrip (s : String) : String :=
  String.mk
    (((s.toList.dropWhile Char.isWhitespace).reverse.dropWhile
        Char.isWhitespace).reverse)

/-! ## Payout Workflow: request (commercive_payouts.py, handle_request_payout) -/

/-- Python's `a or b` on possibly-missing strings: a present non-empty
string wins, otherwise the fallback. -/
def pyOr (a b : Option String) : Option String :=
  match a with
  | some s => if s = "" then b else some s
  | none => b

/-- The minimum payout threshold of the source (`MINIMUM_PAYOUT = 1000`). -/
def MINIMUM_PAYOUT : Int := 1000

/-- `handle_request_payout`, after authentication and JSON parsing.
`amount?` is the parsed body amount (`none` for missing); the affiliate is
resolved through the `user-affiliate-index`; the balance is computed by
`calculate_balance` from fresh reads of the same store.  The returned `DB`
is the store after the call (unchanged on every rejection). -/
def handle_request_payout (db : DB) (user_id : String) (amount? : Option Int)
    (bodyPaymentMethod bodyPaymentEmail : Option String)
    (payout_id now : String) : Except Err Payout × DB :=
  match amount? with
  | none => (.error .validationError, db)
  | some amount =>
    if amount = 0 then (.error .validationError, db)
    else if amount ≤ 0 then (.error .validationError, db)
    else
      match get_affiliate_by_user_id db user_id with
      | none => (.error .forbidden, db)
      | some aff =>
        if aff.status ≠ "active" then (.error .forbidden, db)
        else
          let bal := calculate_balance (.ok (getAffiliate db aff.affiliate_id))
            (.ok (queryPayouts db aff.affiliate_id))
          if amount > bal.available then (.error .insufficientBalance, db)
          else if amount < MINIMUM_PAYOUT then (.error .belowMinimum, db)
          else
            match pyOr bodyPaymentMethod aff.payment_method with
            | none => (.error .validationError, db)
            | some pm =>
              if pm = "" then (.error .validationError, db)
              else if pm ≠ "paypal" ∧ pm ≠ "zelle" then (.error .validationError, db)
              else
                match pyOr bodyPaymentEmail aff.payment_email with
                | none => (.error .validationError, db)
                | some pe =>
                  if pe = "" then (.error .validationError, db)
                  else
                    let payout : Payout :=
                      { payout_id := payout_id, affiliate_id := aff.affiliate_id,
                        amount := amount, payment_method := pm,
                        payment_email := pe, status := "pending",
                        transaction_id := none, notes := none,
                        requested_at := now, processed_at := none,
                        processed_by := none }
                    (.ok payout, { db with payouts := db.payouts ++ [payout] })

/-- C3: a request by an active affiliate for a positive amount strictly
greater than the available balance computed by `calculate_balance` at that
call is rejected with `insufficientBalance` and the store — in particular
the payouts table — is unchanged. -/
theorem request_payout_insufficient (db : DB) (user_id : String) (amount : Int)
    (bpm bpe : Option String) (payout_id now : String) (aff : Affiliate)
    (hfind : get_affiliate_by_user_id db user_id = some aff)
    (hactive : aff.status = "active")
    (hpos : 0 < amount)
    (hover : amount >
      (calculate_balance (.ok (getAffiliate db aff.affiliate_id))
        (.ok (queryPayouts db aff.affiliate_id))).available) :
    handle_request_payout db user_id (some amount) bpm bpe payout_id now =
      (.error .insufficientBalance, db) := by
  have h0 : ¬ amount = 0 := by omega
  have h1 : ¬ amount ≤ 0 := by omega
  simp only [handle_request_payout, h0, if_neg, not_false_eq_true, h1, hfind,
    hactive, ne_eq, not_true_eq_false, if_false, hover, if_pos]

/-- Witness for C3: affiliate with `total_earned = 500` and no payouts has
available balance 500, so a request of 501 is rejected with
`insufficientBalance` and the store is unchanged. -/
theorem request_payout_insufficient_witness :
    get_affiliate_by_user_id
        { affiliates := [{ affC2 with total_earned := 500, total_paid := 0 }],
          links := [], leads := [], commissions := [], payouts := [] } "U1" =
      some { affC2 with total_earned := 500, total_paid := 0 }
    ∧ handle_request_payout
        { affiliates := [{ affC2 with total_earned := 500, total_paid := 0 }],
          links := [], leads := [], commissions := [], payouts := [] }
        "U1" (some 501) none none "P9" "t" =
      (.error .insufficientBalance,
        { affiliates := [{ affC2 with total_earned := 500, total_paid := 0 }],
          links := [], leads := [], commissions := [], payouts := [] }) :=
  ⟨by decide,
   request_payout_insufficient _ "U1" 501 none none "P9" "t"
     { affC2 with total_earned := 500, total_paid := 0 }
     (by decide) (by decide) (by decide) (by decide)⟩

/-- The store used in the C6 counterexample: the active affiliate has
`total_earned = 0`, hence available balance 0. -/
def dbC6 : DB :=
  { affiliates := [{ affC2 with total_earned := 0, total_paid := 0 }],
    links := [], leads := [], commissions := [], payouts := [] }

/-- Counterexample for C6: an active affiliate requesting `amount = 999`
is NOT always rejected with `belowMinimum` — when the amount also exceeds
the available balance (here 0), the balance check runs first and the
rejection is `insufficientBalance`. -/
theorem request_payout_999_not_belowMinimum :
    (handle_request_payout dbC6 "U1" (some 999) none none "P9" "t").1 =
      .error .insufficientBalance
    ∧ (handle_request_payout dbC6 "U1" (some 999) none none "P9" "t").1 ≠
        .error .belowMinimum := by
  constructor
  · rfl
  · intro h
    rw [show (handle_request_payout dbC6 "U1" (some 999) none none "P9" "t").1 =
        Except.error Err.insufficientBalance from rfl] at h
    injection h with h2
    exact absurd h2 (by decide)

/-- C6 as amended: an active affiliate's request for a positive amount
below the minimum payout threshold 1000 is rejected with `belowMinimum`
provided the amount does not exceed the available balance (the balance
check precedes the minimum check); the store is unchanged, so no Payout
record is created. -/
theorem request_payout_below_minimum (db : DB) (user_id : String) (amount : Int)
    (bpm bpe : Option String) (payout_id now : String) (aff : Affiliate)
    (hfind : get_affiliate_by_user_id db user_id = some aff)
    (hactive : aff.status = "active")
    (hpos : 0 < amount) (hmin : amount < MINIMUM_PAYOUT)
    (hle : amount ≤
      (calculate_balance (.ok (getAffiliate db aff.affiliate_id))
        (.ok (queryPayouts db aff.affiliate_id))).available) :
    handle_request_payout db user_id (some amount) bpm bpe payout_id now =
      (.error .belowMinimum, db) := by
  have h0 : ¬ amount = 0 := by omega
  have h1 : ¬ amount ≤ 0 := by omega
  have h2 : ¬ amount >
      (calculate_balance (.ok (getAffiliate db aff.affiliate_id))
        (.ok (queryPayouts db aff.affiliate_id))).available := by omega
  simp [handle_request_payout, h0, h1, hfind, hactive, h2, hmin]

/-- Witness for the amended C6: with available balance 5000, `amount = 999`
is rejected with `belowMinimum` and no Payout is created. -/
theorem request_payout_below_minimum_witness :
    get_affiliate_by_user_id
        { affiliates := [{ affC2 with total_paid := 0 }],
          links := [], leads := [], commissions := [], payouts := [] } "U1" =
      some { affC2 with total_paid := 0 }
    ∧ handle_request_payout
        { affiliates := [{ affC2 with total_paid := 0 }],
          links := [], leads := [], commissions := [], payouts := [] }
        "U1" (some 999) none none "P9" "t" =
      (.error .belowMinimum,
        { affiliates := [{ affC2 with total_paid := 0 }],
          links := [], leads := [], commissions := [], payouts := [] }) :=
  ⟨by decide,
   request_payout_below_minimum _ "U1" 999 none none "P9" "t"
     { affC2 with total_paid := 0 }
     (by decide) (by decide) (by decide) (by decide) (by decide)⟩

/-! ## Commission Ledger (commercive_leads.py, convert_lead) -/

/-- `convert_lead`, after admin authentication and JSON parsing.
`amount?` is the parsed body amount (`none` for missing; Python treats a
zero amount as missing through `if not amount`), `commission_id` the fresh
UUID, `now` the timestamp.  Store writes are modelled as succeeding; the
best-effort counter updates (affiliate totals, link conversions_count)
follow the source's read-then-write with the freshly read values. -/
def convert_lead (db : DB) (lead_id : String) (amount? : Option Int)
    (descriptionRaw : String) (commission_id now : String) :
    Except Err Commission × DB :=
  match amount? with
  | none => (.error .validationError, db)
  | some amount =>
    if amount = 0 then (.error .validationError, db)
    else if amount ≤ 0 then (.error .validationError, db)
    else
      match getLead db lead_id with
      | none => (.error .notFound, db)
      | some lead =>
        if lead.status = "converted" then (.error .alreadyConverted, db)
        else
          let description := pyStrip descriptionRaw
          let comm : Commission :=
            { commission_id := commission_id, affiliate_id := lead.affiliate_id,
              lead_id := lead_id,
              description :=
                if description = "" then "Commission from lead: " ++ lead.name
                else description,
              amount := amount, status := "pending", payout_id := none }
          let db1 := { db with commissions := db.commissions ++ [comm] }
          let db2 := updateLeadIn db1 lead_id (fun l =>
            { l with status := "converted", converted_at := some now })
          let db3 :=
            match getAffiliate db2 lead.affiliate_id with
            | some _ =>
              updateAffiliateIn db2 lead.affiliate_id (fun a =>
                { a with total_conversions := a.total_conversions + 1,
                         total_earned := a.total_earned + amount })
            | none => db2
          let db4 :=
            match lead.link_id with
            | some lid =>
              match getLink db3 lid with
              | some l =>
                updateLinkIn db3 lid (fun x =>
                  { x with conversions_count := l.conversions_count + 1 })
              | none => db3
            | none => db3
          (.ok comm, db4)

/-- `update_lead_status`, after authentication and JSON parsing.  `role`
and `userAffiliateId` model the caller's identity (the result of the
`user-affiliate-index` query for a non-admin caller); `statusRaw` and
`notesRaw` are the body fields before `.strip()`. -/
def update_lead_status (db : DB) (lead_id : String)
    (statusRaw notesRaw : String) (role : String)
    (userAffiliateId : Option String) (_now : String) : Except Err Unit × DB :=
  let status := pyStrip statusRaw
  let notes := pyStrip notesRaw
  if status ≠ "" ∧ ¬ (["new", "contacted", "converted", "lost"].contains status) then
    (.error .validationError, db)
  else
    match getLead db lead_id with
    | none => (.error .notFound, db)
    | some lead =>
      let applyUpdate : DB → Except Err Unit × DB := fun d =>
        (.ok (),
          updateLeadIn d lead_id (fun l =>
            let l1 := if status ≠ "" then { l with status := status } else l
            if notes ≠ "" then { l1 with notes := notes } else l1))
      if role ≠ "admin" then
        match userAffiliateId with
        | none => (.error .forbidden, db)
        | some uaid =>
          if uaid ≠ lead.affiliate_id then (.error .forbidden, db)
          else applyUpdate db
      else applyUpdate db

/-- C1: calling `convert_lead` with a valid positive amount on a lead
whose status is `converted` fails with `alreadyConverted` and leaves the
store — in particular the set of Commission records — unchanged. -/
theorem convert_lead_already_converted (db : DB) (lead_id : String)
    (amount : Int) (d cid now : String) (lead : Lead)
    (hfind : getLead db lead_id = some lead)
    (hconv : lead.status = "converted")
    (hpos : 0 < amount) :
    convert_lead db lead_id (some amount) d cid now =
      (.error .alreadyConverted, db)
    ∧ (convert_lead db lead_id (some amount) d cid now).2.commissions =
        db.commissions := by
  have h0 : ¬ amount = 0 := by omega
  have h1 : ¬ amount ≤ 0 := by omega
  have hmain : convert_lead db lead_id (some amount) d cid now =
      (.error .alreadyConverted, db) := by
    simp [convert_lead, h0, h1, hfind, hconv]
  exact ⟨hmain, by rw [hmain]⟩

/-- A converted lead, for the C1 witness and the C5 counterexample. -/
def leadConverted : Lead :=
  { lead_id := "L1", affiliate_id := "A1", link_id := none,
    name := "Alice", email := "alice@example.com", phone := "555",
    company := "", message := "", status := "converted", notes := "",
    converted_at := some "t0" }

/-- A lost lead, for the C5 counterexample. -/
def leadLost : Lead :=
  { lead_id := "L2", affiliate_id := "A1", link_id := none,
    name := "Bob", email := "bob@example.com", phone := "556",
    company := "", message := "", status := "lost", notes := "",
    converted_at := none }

/-- Store holding one converted and one lost lead. -/
def dbLeads : DB :=
  { affiliates := [affC2], links := [], leads := [leadConverted, leadLost],
    commissions := [], payouts := [] }

/-- Witness for C1: converting the already-converted lead `L1` fails with
`alreadyConverted` and leaves the commissions table unchanged. -/
theorem convert_lead_already_converted_witness :
    getLead dbLeads "L1" = some leadConverted
    ∧ leadConverted.status = "converted"
    ∧ convert_lead dbLeads "L1" (some 500) "" "C1" "t1" =
        (.error .alreadyConverted, dbLeads)
    ∧ (convert_lead dbLeads "L1" (some 500) "" "C1" "t1").2.commissions =
        dbLeads.commissions :=
  ⟨by decide, rfl,
   (convert_lead_already_converted dbLeads "L1" 500 "" "C1" "t1" leadConverted
      (by decide) rfl (by decide)).1,
   (convert_lead_already_converted dbLeads "L1" 500 "" "C1" "t1" leadConverted
      (by decide) rfl (by decide)).2⟩

/-- Counterexample for C5: `lost` is not terminal and `converted` is not
sticky.  Converting the lead `L2`, whose status is `lost`, succeeds and
creates a Commission; and `update_lead_status` moves the converted lead
`L1` back to status `new`. -/
theorem lead_lifecycle_counterexample :
    getLead dbLeads "L2" = some leadLost
    ∧ leadLost.status = "lost"
    ∧ (∃ c : Commission, (convert_lead dbLeads "L2" (some 500) "" "C1" "t1").1 = .ok c)
    ∧ ((convert_lead dbLeads "L2" (some 500) "" "C1" "t1").2.commissions.length = 1)
    ∧ ((getLead (convert_lead dbLeads "L2" (some 500) "" "C1" "t1").2 "L2").map
        Lead.status = some "converted")
    ∧ getLead dbLeads "L1" = some leadConverted
    ∧ leadConverted.status = "converted"
    ∧ ((update_lead_status dbLeads "L1" "new" "" "admin" none "t2").1 =
        Except.ok ())
    ∧ ((getLead (update_lead_status dbLeads "L1" "new" "" "admin" none "t2").2 "L1").map
        Lead.status = some "new") := by
  refine ⟨by decide, rfl, ⟨_, rfl⟩, by decide, by decide, by decide, rfl, rfl, by decide⟩


/-- C5 as amended: the `status = converted` check is the only conversion
guard in `convert_lead` — for a found lead and a valid positive amount,
the call fails with `alreadyConverted` exactly when the lead's status is
`converted` (so a `lost` lead converts, and since `update_lead_status`
can move a converted lead back, a lead can convert more than once across
a sequence of operations). -/
theorem convert_lead_guard_iff (db : DB) (lead_id : String) (amount : Int)
    (d cid now : String) (lead : Lead)
    (hfind : getLead db lead_id = some lead)
    (hpos : 0 < amount) :
    (convert_lead db lead_id (some amount) d cid now).1 =
        .error .alreadyConverted
      ↔ lead.status = "converted" := by
  have h0 : ¬ amount = 0 := by omega
  have h1 : ¬ amount ≤ 0 := by omega
  constructor
  · intro h
    by_contra hne
    simp [convert_lead, h0, h1, hfind, hne] at h
  · intro hconv
    simp [convert_lead, h0, h1, hfind, hconv]

/-- Witness for the amended C5: the converted lead `L1` triggers the
guard, the lost lead `L2` does not. -/
theorem convert_lead_guard_iff_witness :
    ((convert_lead dbLeads "L1" (some 500) "" "C1" "t1").1 =
        .error .alreadyConverted)
    ∧ ¬ ((convert_lead dbLeads "L2" (some 500) "" "C1" "t1").1 =
        .error .alreadyConverted) :=
  ⟨(convert_lead_guard_iff dbLeads "L1" 500 "" "C1" "t1" leadConverted
      (by decide) (by decide)).mpr rfl,
   fun h =>
     absurd ((convert_lead_guard_iff dbLeads "L2" 500 "" "C1" "t1" leadLost
       (by decide) (by decide)).mp h) (by decide)⟩

/-! ## Payout settlement (commercive_admin.py, process_payout) -/

/-- The settlement update applied to the payout record:
`{status: completed, transaction_id, notes, processed_at, processed_by}`. -/
def settleUpd (transaction_id notes now admin_user_id : String)
    (p : Payout) : Payout :=
  { p with status := "completed", transaction_id := some transaction_id,
           notes := some notes, processed_at := some now,
           processed_by := some admin_user_id }

/-- The store after the success path of `process_payout` found `payout`:
the payout is settled, the affiliate's cached `total_paid` is incremented
by the payout amount (when the affiliate is found), and every commission
whose `payout_id` references this payout is re-labelled `paid`. -/
def settleState (db : DB) (payout_id : String)
    (transaction_id notes now admin_user_id : String) (payout : Payout) : DB :=
  let db1 := updatePayoutIn db payout_id
    (settleUpd transaction_id notes now admin_user_id)
  let db2 :=
    match getAffiliate db1 payout.affiliate_id with
    | some aff =>
      updateAffiliateIn db1 payout.affiliate_id (fun a =>
        { a with total_paid := aff.total_paid + payout.amount })
    | none => db1
  { db2 with
    commissions := db2.commissions.map (fun c =>
      if c.payout_id = some payout_id then { c with status := "paid" } else c) }

/-- `process_payout`, after admin authentication and JSON parsing.  The
admin's user id populates `processed_by`.  Store writes are modelled as
succeeding. -/
def process_payout (db : DB) (payout_id : String)
    (transaction_id notes now admin_user_id : String) : Except Err Unit × DB :=
  match getPayout db payout_id with
  | none => (.error .notFound, db)
  | some payout =>
    if ¬ (payout.status = "pending" ∨ payout.status = "processing") then
      (.error .alreadyProcessed, db)
    else
      (.ok (), settleState db payout_id transaction_id notes now admin_user_id payout)

lemma find?_cons_true {α : Type} (p : α → Bool) (a : α) (l : List α)
    (h : p a = true) : List.find? p (a :: l) = some a := by
  simp [List.find?, h]

lemma find?_cons_false {α : Type} (p : α → Bool) (a : α) (l : List α)
    (h : p a = false) : List.find? p (a :: l) = List.find? p l := by
  simp [List.find?, h]

lemma findBy_updateBy {α : Type} (key : α → String) (id : String) (f : α → α)
    (l : List α) (hf : ∀ x, key (f x) = key x) :
    findBy key id (updateBy key id f l) = (findBy key id l).map f := by
  induction l with
  | nil => rfl
  | cons x xs ih =>
    by_cases hx : (key x == id) = true
    · have hfx : (key (f x) == id) = true := by rw [hf]; exact hx
      have h1 : updateBy key id f (x :: xs) = f x :: updateBy key id f xs := by
        simp only [updateBy, List.map_cons, if_pos hx]
      simp only [findBy] at ih ⊢
      rw [h1, find?_cons_true (fun y => key y == id) (f x) _ hfx,
        find?_cons_true (fun y => key y == id) x _ hx]
      rfl
    · have hx' : (key x == id) = false := by
        revert hx
        cases key x == id <;> simp
      have h1 : updateBy key id f (x :: xs) = x :: updateBy key id f xs := by
        simp only [updateBy, List.map_cons, if_neg hx]
      simp only [findBy] at ih ⊢
      rw [h1, find?_cons_false (fun y => key y == id) x _ hx',
        find?_cons_false (fun y => key y == id) x _ hx']
      exact ih

lemma getAffiliate_updatePayoutIn (db : DB) (i : String) (f : Payout → Payout)
    (x : String) : getAffiliate (updatePayoutIn db i f) x = getAffiliate db x := rfl

lemma getPayout_updateAffiliateIn (db : DB) (i : String)
    (f : Affiliate → Affiliate) (x : String) :
    getPayout (updateAffiliateIn db i f) x = getPayout db x := rfl

lemma getPayout_updatePayoutIn (db : DB) (i : String) (f : Payout → Payout)
    (hf : ∀ p, (f p).payout_id = p.payout_id) :
    getPayout (updatePayoutIn db i f) i = (getPayout db i).map f :=
  findBy_updateBy Payout.payout_id i f db.payouts hf

lemma getAffiliate_updateAffiliateIn (db : DB) (i : String)
    (f : Affiliate → Affiliate) (hf : ∀ a, (f a).affiliate_id = a.affiliate_id) :
    getAffiliate (updateAffiliateIn db i f) i = (getAffiliate db i).map f :=
  findBy_updateBy Affiliate.affiliate_id i f db.affiliates hf

/-- In `settleState` the payout record ends up settled, independently of
the affiliate-counter and commission branches (which do not touch the
payouts table). -/
lemma getPayout_settleState (db : DB) (pid tx nts now adminId : String)
    (payout : Payout) :
    getPayout (settleState db pid tx nts now adminId payout) pid =
      (getPayout db pid).map (settleUpd tx nts now adminId) := by
  have hbase : getPayout (updatePayoutIn db pid (settleUpd tx nts now adminId)) pid =
      (getPayout db pid).map (settleUpd tx nts now adminId) :=
    getPayout_updatePayoutIn db pid _ (fun p => rfl)
  simp only [settleState]
  cases h : getAffiliate (updatePayoutIn db pid (settleUpd tx nts now adminId))
      payout.affiliate_id with
  | none => exact hbase
  | some aff =>
    rw [show getPayout
        { updateAffiliateIn (updatePayoutIn db pid (settleUpd tx nts now adminId))
            payout.affiliate_id (fun a =>
              { a with total_paid := aff.total_paid + payout.amount }) with
          commissions := _ } pid =
        getPayout (updatePayoutIn db pid (settleUpd tx nts now adminId)) pid from rfl]
    exact hbase

/-- C4: `process_payout` fails with `notFound` when the payout is absent
and with `alreadyProcessed` when its status is outside
`{pending, processing}` (the store unchanged in both cases); and starting
from a pending-or-processing payout whose affiliate exists, the first call
succeeds, a second call on the same payout id returns `alreadyProcessed`
leaving the state of the first call untouched, and across the two calls
the affiliate's `total_paid` counter has been incremented by the payout
amount exactly once. -/
theorem process_payout_idempotent (db : DB) (pid tx nts now adminId : String) :
    (getPayout db pid = none →
      process_payout db pid tx nts now adminId = (.error .notFound, db))
    ∧ (∀ p : Payout, getPayout db pid = some p →
        ¬ (p.status = "pending" ∨ p.status = "processing") →
        process_payout db pid tx nts now adminId = (.error .alreadyProcessed, db))
    ∧ (∀ (p : Payout) (aff : Affiliate),
        getPayout db pid = some p →
        (p.status = "pending" ∨ p.status = "processing") →
        getAffiliate db p.affiliate_id = some aff →
        (process_payout db pid tx nts now adminId).1 = Except.ok ()
        ∧ process_payout (process_payout db pid tx nts now adminId).2 pid tx nts
            now adminId =
          (.error .alreadyProcessed, (process_payout db pid tx nts now adminId).2)
        ∧ (getAffiliate (process_payout db pid tx nts now adminId).2
            p.affiliate_id).map Affiliate.total_paid =
          some (aff.total_paid + p.amount)) := by
  refine ⟨?_, ?_, ?_⟩
  · intro h
    simp [process_payout, h]
  · intro p hp hst
    simp [process_payout, hp, hst]
  · intro p aff hp hst haff
    have hrun : process_payout db pid tx nts now adminId =
        (.ok (), settleState db pid tx nts now adminId p) := by
      simp only [process_payout, hp]
      rw [if_neg (not_not_intro hst)]
    have hsettled : getPayout (settleState db pid tx nts now adminId p) pid =
        some (settleUpd tx nts now adminId p) := by
      rw [getPayout_settleState, hp, Option.map_some']
    have haff1 : getAffiliate (updatePayoutIn db pid (settleUpd tx nts now adminId))
        p.affiliate_id = some aff := haff
    refine ⟨by rw [hrun], ?_, ?_⟩
    · rw [hrun]
      have hc : ¬ ((settleUpd tx nts now adminId p).status = "pending" ∨
          (settleUpd tx nts now adminId p).status = "processing") := by
        rw [show (settleUpd tx nts now adminId p).status = "completed" from rfl]
        decide
      simp only [process_payout, hsettled]
      rw [if_pos hc]
    · rw [hrun]
      have hA : getAffiliate (settleState db pid tx nts now adminId p)
          p.affiliate_id =
          getAffiliate (updateAffiliateIn
            (updatePayoutIn db pid (settleUpd tx nts now adminId))
            p.affiliate_id (fun a =>
              { a with total_paid := aff.total_paid + p.amount }))
            p.affiliate_id := by
        simp only [settleState, haff1]
        rfl
      rw [hA, getAffiliate_updateAffiliateIn
        (updatePayoutIn db pid (settleUpd tx nts now adminId)) p.affiliate_id
        (fun a => { a with total_paid := aff.total_paid + p.amount })
        (fun a => rfl), haff1, Option.map_some', Option.map_some']

/-- Store for the C4 witness: one pending payout of 2000 and its
affiliate with cached `total_paid = 0`. -/
def dbC4 : DB :=
  { affiliates := [{ affC2 with total_paid := 0 }], links := [], leads := [],
    commissions := [], payouts := [{ payoutPending1000 with amount := 2000 }] }

/-- Witness for C4: processing the pending payout `P2` succeeds, a second
`process_payout` on the same id returns `alreadyProcessed` without
changing the state, and `total_paid` went from 0 to 2000 — incremented
exactly once across the two calls. -/
theorem process_payout_idempotent_witness :
    getPayout dbC4 "P2" = some { payoutPending1000 with amount := 2000 }
    ∧ (process_payout dbC4 "P2" "tx" "n" "t2" "adm").1 = Except.ok ()
    ∧ process_payout (process_payout dbC4 "P2" "tx" "n" "t2" "adm").2 "P2"
        "tx" "n" "t2" "adm" =
      (.error .alreadyProcessed, (process_payout dbC4 "P2" "tx" "n" "t2" "adm").2)
    ∧ (getAffiliate (process_payout dbC4 "P2" "tx" "n" "t2" "adm").2 "A1").map
        Affiliate.total_paid = some 2000 :=
  ⟨by decide,
   ((process_payout_idempotent dbC4 "P2" "tx" "n" "t2" "adm").2.2
      { payoutPending1000 with amount := 2000 } { affC2 with total_paid := 0 }
      (by decide) (Or.inl rfl) (by decide)).1,
   ((process_payout_idempotent dbC4 "P2" "tx" "n" "t2" "adm").2.2
      { payoutPending1000 with amount := 2000 } { affC2 with total_paid := 0 }
      (by decide) (Or.inl rfl) (by decide)).2.1,
   ((process_payout_idempotent dbC4 "P2" "tx" "n" "t2" "adm").2.2
      { payoutPending1000 with amount := 2000 } { affC2 with total_paid := 0 }
      (by decide) (Or.inl rfl) (by decide)).2.2⟩

/-! ## Lead Intake (commercive_leads.py, submit_lead) -/

/-- A character of the local part of the email pattern
`[a-zA-Z0-9._%+-]`. -/
def localChar (c : Char) : Bool :=
  c.isAlpha || c.isDigit || c = '.' || c = '_' || c = '%' || c = '+' || c = '-'

/-- A character of the domain part of the email pattern `[a-zA-Z0-9.-]`. -/
def domainChar (c : Char) : Bool :=
  c.isAlpha || c.isDigit || c = '.' || c = '-'

/-- The email-format check of `submit_lead`:
`re.match(r'^[a-zA-Z0-9._%+-]+@[a-zA-Z0-9.-]+\.[a-zA-Z]{2,}$', email)`.
Since `@` belongs to no character class, the pattern matches exactly when
the text before the first `@` is a non-empty run of local characters, and
the text after it decomposes as a non-empty run of domain characters, a
dot, and a final run of at least two letters — the final run is the
suffix after the last dot, since the letter class excludes dots.  (The
source applies the regex to the already-stripped email, so the
`$`-before-trailing-newline case of Python cannot arise.) -/
def valid_email (email : String) : Bool :=
  let cs := email.toList
  if ¬ cs.contains '@' then false
  else
    let l := cs.takeWhile (fun c => c ≠ '@')
    let dom := (cs.dropWhile (fun c => c ≠ '@')).tail
    if l.isEmpty || ¬ l.all localChar then false
    else if ¬ dom.contains '.' then false
    else
      let t := (dom.reverse.takeWhile (fun c => c ≠ '.')).reverse
      let beforeDot := dom.take (dom.length - t.length - 1)
      decide (2 ≤ t.length) && t.all Char.isAlpha &&
        ¬ beforeDot.isEmpty && beforeDot.all domainChar

/-- The referral-link lookup of `submit_lead`: by primary key when a
(truthy) `link_id` is supplied, otherwise by the `short-code-index`
taking the first result. -/
def lookup_affiliate_link (db : DB) (link_id? short_code? : Option String) :
    Option ReferralLink :=
  match link_id? with
  | some lid =>
    if lid ≠ "" then getLink db lid
    else
      match short_code? with
      | some sc =>
        if sc ≠ "" then (db.links.filter (fun l => l.short_code == sc)).head?
        else none
      | none => none
  | none =>
    match short_code? with
    | some sc =>
      if sc ≠ "" then (db.links.filter (fun l => l.short_code == sc)).head?
      else none
    | none => none

/-- Python truthiness of an optional string field. -/
def truthy (o : Option String) : Bool :=
  match o with
  | some s => s ≠ ""
  | none => false

/-- `submit_lead`, after JSON parsing (this endpoint is public: no
authentication).  `lead_id` is the fresh UUID, `now` the timestamp.  The
two best-effort counter increments after the lead write follow the
source's read-then-write with the values read. -/
def submit_lead (db : DB) (link_id? short_code? : Option String)
    (nameRaw emailRaw phoneRaw companyRaw messageRaw : String)
    (lead_id _now : String) : Except Err Unit × DB :=
  let name := pyStrip nameRaw
  let email := pyStrip emailRaw
  let phone := pyStrip phoneRaw
  let company := pyStrip companyRaw
  let message := pyStrip messageRaw
  if ¬ truthy link_id? ∧ ¬ truthy short_code? then (.error .validationError, db)
  else if name = "" then (.error .validationError, db)
  else if email = "" then (.error .validationError, db)
  else if phone = "" then (.error .validationError, db)
  else if ¬ valid_email email then (.error .validationError, db)
  else
    match lookup_affiliate_link db link_id? short_code? with
    | none => (.error .invalidReferral, db)
    | some link =>
      if ¬ link.is_active then (.error .invalidReferral, db)
      else
        let lead : Lead :=
          { lead_id := lead_id, affiliate_id := link.affiliate_id,
            link_id := some link.link_id, name := name, email := email,
            phone := phone, company := company, message := message,
            status := "new", notes := "", converted_at := none }
        let db1 := { db with leads := db.leads ++ [lead] }
        let db2 := updateLinkIn db1 link.link_id (fun l =>
          { l with leads_count := link.leads_count + 1 })
        let db3 :=
          match getAffiliate db2 link.affiliate_id with
          | some _ =>
            updateAffiliateIn db2 link.affiliate_id (fun a =>
              { a with total_leads := a.total_leads + 1 })
          | none => db2
        (.ok (), db3)

/-- C8: a submission with valid contact fields whose referral reference
resolves to no link, or to a link whose `is_active` flag is false, is
rejected with `invalidReferral` and the store — in particular the leads
table — is unchanged. -/
theorem submit_lead_invalid_referral (db : DB)
    (link_id? short_code? : Option String)
    (nameRaw emailRaw phoneRaw companyRaw messageRaw lead_id now : String)
    (href : truthy link_id? = true ∨ truthy short_code? = true)
    (hname : pyStrip nameRaw ≠ "")
    (hemail : pyStrip emailRaw ≠ "")
    (hphone : pyStrip phoneRaw ≠ "")
    (hvalid : valid_email (pyStrip emailRaw) = true)
    (hlink : lookup_affiliate_link db link_id? short_code? = none
      ∨ ∃ l : ReferralLink, lookup_affiliate_link db link_id? short_code? = some l
          ∧ l.is_active = false) :
    submit_lead db link_id? short_code? nameRaw emailRaw phoneRaw companyRaw
        messageRaw lead_id now = (.error .invalidReferral, db)
    ∧ (submit_lead db link_id? short_code? nameRaw emailRaw phoneRaw companyRaw
        messageRaw lead_id now).2.leads = db.leads := by
  have hor : ¬ (¬ truthy link_id? = true ∧ ¬ truthy short_code? = true) := by
    rcases href with h | h <;> simp [h]
  have hor2 : truthy link_id? = false → truthy short_code? = true := by
    rcases href with h | h
    · intro hf
      rw [h] at hf
      cases hf
    · intro _
      exact h
  have hmain : submit_lead db link_id? short_code? nameRaw emailRaw phoneRaw
      companyRaw messageRaw lead_id now = (.error .invalidReferral, db) := by
    rcases hlink with hnone | ⟨l, hsome, hinact⟩
    · simp [submit_lead, hor, hname, hemail, hphone, hvalid, hnone]
      exact hor2
    · simp [submit_lead, hor, hname, hemail, hphone, hvalid, hsome, hinact]
      exact hor2
  exact ⟨hmain, by rw [hmain]⟩

/-- An inactive referral link for the C8 witness. -/
def linkInactive : ReferralLink :=
  { link_id := "LK1", affiliate_id := "A1", short_code := "AB12CD",
    name := "campaign", leads_count := 0, conversions_count := 0,
    is_active := false }

/-- Store for the C8 witness: one inactive link, no leads. -/
def dbC8 : DB :=
  { affiliates := [affC2], links := [linkInactive], leads := [],
    commissions := [], payouts := [] }

/-- Witness for C8: submitting against the inactive link's short code is
rejected with `invalidReferral` and no Lead record is created; likewise a
short code that resolves to nothing. -/
theorem submit_lead_invalid_referral_witness :
    valid_email (pyStrip "alice@example.com") = true
    ∧ lookup_affiliate_link dbC8 none (some "AB12CD") = some linkInactive
    ∧ submit_lead dbC8 none (some "AB12CD") "Alice" "alice@example.com" "555"
        "" "" "L9" "t" = (.error .invalidReferral, dbC8)
    ∧ submit_lead dbC8 none (some "ZZZZZZ") "Alice" "alice@example.com" "555"
        "" "" "L9" "t" = (.error .invalidReferral, dbC8) :=
  ⟨by decide, by decide,
   (submit_lead_invalid_referral dbC8 none (some "AB12CD") "Alice"
      "alice@example.com" "555" "" "" "L9" "t" (Or.inr (by decide))
      (by decide) (by decide) (by decide) (by decide)
      (Or.inr ⟨linkInactive, by decide, rfl⟩)).1,
   (submit_lead_invalid_referral dbC8 none (some "ZZZZZZ") "Alice"
      "alice@example.com" "555" "" "" "L9" "t" (Or.inr (by decide))
      (by decide) (by decide) (by decide) (by decide)
      (Or.inl (by decide))).1⟩

/-! ## Referral Link Registry: short-code generation
(commercive_affiliates.py, generate_unique_short_code) -/

/-- The sampling alphabet
`string.ascii_uppercase + string.digits` (36 characters). -/
def scAlphabet : List Char := "ABCDEFGHIJKLMNOPQRSTUVWXYZ0123456789".toList

/-- One candidate code, `''.join(random.choices(chars, k=6))`:
6 characters, each drawn from the 36-character alphabet by the random
oracle `draw` (`random.choices` with default weights draws each position
independently and uniformly; the distribution itself lives in the oracle,
the embedding keeps the alphabet and the length). -/
def sampleCode (draw : Fin 6 → Fin 36) : String :=
  String.mk ((List.finRange 6).map (fun j => scAlphabet.getD (draw j).val 'A'))

/-- The collision check of the loop body: the query on the
`short-code-index` returned at least one link. -/
def shortCodeExists (db : DB) (code : String) : Bool :=
  ¬ (db.links.filter (fun l => l.short_code == code)).isEmpty

/-- The fallback `str(uuid.uuid4())[:6].upper()`. -/
def uuidFallback (uuid : String) : String :=
  String.mk ((uuid.toList.take 6).map Char.toUpper)

/-- The retry loop: the first candidate, in attempt order, that does not
collide with an existing short code. -/
def firstFresh (existing : String → Bool) (cands : List String) : Option String :=
  cands.find? (fun c => ! existing c)

/-- The attempt list: exactly `max_attempts = 10` candidates. -/
def scAttempts (draws : Fin 10 → Fin 6 → Fin 36) : List String :=
  (List.finRange 10).map (fun a => sampleCode (draws a))

/-- `generate_unique_short_code`: return the first of the 10 sampled
candidates without an existing link, and if every attempt collides fall
back to the truncated uppercased UUID. -/
def generate_unique_short_code (db : DB) (draws : Fin 10 → Fin 6 → Fin 36)
    (uuid : String) : String :=
  match firstFresh (shortCodeExists db) (scAttempts draws) with
  | some c => c
  | none => uuidFallback uuid

lemma getD_scAlphabet_mem (i : Fin 36) : scAlphabet.getD i.val 'A' ∈ scAlphabet := by
  have h : ∀ i : Fin 36, scAlphabet.getD i.val 'A' ∈ scAlphabet := by decide
  exact h i

lemma sampleCode_length (d : Fin 6 → Fin 36) : (sampleCode d).length = 6 := by
  simp [sampleCode, String.length]

lemma sampleCode_mem (d : Fin 6 → Fin 36) :
    ∀ c ∈ (sampleCode d).toList, c ∈ scAlphabet := by
  intro c hc
  simp only [sampleCode, String.toList, List.mem_map] at hc
  obtain ⟨j, _, hj⟩ := hc
  rw [← hj]
  exact getD_scAlphabet_mem (d j)

/-- C9: `generate_unique_short_code` performs rejection sampling with at
most 10 attempts: the attempt list holds exactly 10 candidates, each a
6-character string over the uppercase-letters-and-digits alphabet; every
candidate for which a link with that short code exists is rejected; the
first non-colliding candidate is returned; and if all 10 attempts collide
the result is the fallback — the first 6 characters of the fresh UUID,
uppercased. -/
theorem generate_short_code_rejection_sampling (db : DB)
    (draws : Fin 10 → Fin 6 → Fin 36) (uuid : String) :
    (scAttempts draws).length = 10
    ∧ (∀ a : Fin 10, (sampleCode (draws a)).length = 6
        ∧ ∀ c ∈ (sampleCode (draws a)).toList, c ∈ scAlphabet)
    ∧ (∀ c : String, firstFresh (shortCodeExists db) (scAttempts draws) = some c →
        generate_unique_short_code db draws uuid = c
        ∧ shortCodeExists db c = false
        ∧ c ∈ scAttempts draws)
    ∧ (firstFresh (shortCodeExists db) (scAttempts draws) = none →
        generate_unique_short_code db draws uuid = uuidFallback uuid) := by
  refine ⟨by simp [scAttempts], fun a => ⟨sampleCode_length _, sampleCode_mem _⟩,
    ?_, ?_⟩
  · intro c hc
    refine ⟨by simp [generate_unique_short_code, hc], ?_, ?_⟩
    · have h := List.find?_some hc
      simpa using h
    · exact List.mem_of_find?_eq_some hc
  · intro hnone
    simp [generate_unique_short_code, hnone]

/-- Oracle draws that always pick the first alphabet character,
giving the candidate `AAAAAA` on every attempt. -/
def drawsA : Fin 10 → Fin 6 → Fin 36 := fun _ _ => ⟨0, by decide⟩

/-- Store already holding a link with short code `AAAAAA`, forcing every
attempt to collide. -/
def dbCollide : DB :=
  { affiliates := [], links := [{ linkInactive with short_code := "AAAAAA" }],
    leads := [], commissions := [], payouts := [] }

/-- Witness for C9: against an empty store the first draw `AAAAAA` is
fresh and returned; against a store holding `AAAAAA` all 10 attempts
collide and the fallback — the uppercased 6-character UUID truncation —
is returned. -/
theorem generate_short_code_rejection_sampling_witness :
    (firstFresh (shortCodeExists (DB.mk [] [] [] [] [])) (scAttempts drawsA) =
        some "AAAAAA"
      ∧ generate_unique_short_code (DB.mk [] [] [] [] []) drawsA
          "1b4e28ba-2fa1-11d2-883f-0016d3cca427" = "AAAAAA")
    ∧ (firstFresh (shortCodeExists dbCollide) (scAttempts drawsA) = none
      ∧ generate_unique_short_code dbCollide drawsA
          "1b4e28ba-2fa1-11d2-883f-0016d3cca427" =
        uuidFallback "1b4e28ba-2fa1-11d2-883f-0016d3cca427") :=
  ⟨⟨by decide,
    ((generate_short_code_rejection_sampling (DB.mk [] [] [] [] []) drawsA
      "1b4e28ba-2fa1-11d2-883f-0016d3cca427").2.2.1 "AAAAAA" (by decide)).1⟩,
   ⟨by decide,
    (generate_short_code_rejection_sampling dbCollide drawsA
      "1b4e28ba-2fa1-11d2-883f-0016d3cca427").2.2.2 (by decide)⟩⟩

/-- Lowercase hexadecimal digits: the characters a canonical
`str(uuid.uuid4())` can have among its first 6 positions. -/
def hexChars : List Char := "0123456789abcdef".toList

lemma toUpper_hex_mem : ∀ c ∈ hexChars, c.toUpper ∈ scAlphabet := by decide

/-- C10: every result of `generate_unique_short_code` — sampled or from
the fallback path, given that the UUID string is at least 6 characters
long and its first 6 characters are hexadecimal digits — is exactly 6
characters, all of them uppercase letters or digits. -/
theorem generate_short_code_format (db : DB) (draws : Fin 10 → Fin 6 → Fin 36)
    (uuid : String)
    (hlen : 6 ≤ uuid.length)
    (hhex : ∀ c ∈ uuid.toList.take 6, c ∈ hexChars) :
    (generate_unique_short_code db draws uuid).length = 6
    ∧ ∀ c ∈ (generate_unique_short_code db draws uuid).toList, c ∈ scAlphabet := by
  unfold generate_unique_short_code
  cases hfind : firstFresh (shortCodeExists db) (scAttempts draws) with
  | some c =>
    have hmem := List.mem_of_find?_eq_some hfind
    simp only [scAttempts, List.mem_map] at hmem
    obtain ⟨a, _, ha⟩ := hmem
    rw [← ha]
    exact ⟨sampleCode_length _, sampleCode_mem _⟩
  | none =>
    constructor
    · have h6 : (uuid.toList.take 6).length = 6 := by
        rw [List.length_take]
        have : uuid.toList.length = uuid.length := rfl
        omega
      have hmk : (uuidFallback uuid).length =
          ((uuid.toList.take 6).map Char.toUpper).length := rfl
      rw [hmk, List.length_map, h6]
    · intro c hc
      simp only [uuidFallback, String.toList, List.mem_map] at hc
      obtain ⟨x, hx, hxc⟩ := hc
      rw [← hxc]
      exact toUpper_hex_mem x (hhex x hx)

/-- Witness for C10: both on the fresh-draw path (empty store) and on the
all-collide fallback path, the result has 6 uppercase-alphanumeric
characters. -/
theorem generate_short_code_format_witness :
    6 ≤ ("1b4e28ba-2fa1-11d2-883f-0016d3cca427" : String).length
    ∧ (generate_unique_short_code dbCollide drawsA
        "1b4e28ba-2fa1-11d2-883f-0016d3cca427").length = 6
    ∧ ∀ c ∈ (generate_unique_short_code dbCollide drawsA
        "1b4e28ba-2fa1-11d2-883f-0016d3cca427").toList, c ∈ scAlphabet :=
  ⟨by decide,
   (generate_short_code_format dbCollide drawsA
      "1b4e28ba-2fa1-11d2-883f-0016d3cca427" (by decide) (by decide)).1,
   (generate_short_code_format dbCollide drawsA
      "1b4e28ba-2fa1-11d2-883f-0016d3cca427" (by decide) (by decide)).2⟩

end Commercive
